import Mathlib

/-!
Verification of `metasim/randomization/base.py` (`BaseRandomizerType`):
the seeded RNG provider and the render-settle barrier
(`_sync_visual_updates` / `_wait_for_material_library` /
`_settle_renderer_frames` / `_wait_for_async_engine`).

Python's stateful methods are embedded by explicit state passing: a method
that can mutate `self` or the process-wide `random` module state takes and
returns those states.  Exceptions raised by collaborator calls are modelled
as `Except` values; a `try/except` block is translated by matching on the
outcome exactly where the source catches.  The barrier functions return an
`EResult`: the trace of observable events (collaborator calls and log
entries) together with the exception escaping to the caller, if any.
-/

namespace RoboVerse

/-- Exceptions are identified by their message. -/
abbrev Exn := String

/-- Model of CPython's `random.Random` / the process-wide `random` module
state.  CPython uses a Mersenne Twister; its internals are outside this
repository, so it is modelled as a deterministic pure generator (a 64-bit
LCG).  Every claim about seeding depends only on the generator being a
deterministic function of the seed, which holds for the real library and
for this model alike. -/
structure PyRandom where
  state : Nat
deriving DecidableEq, Repr

/-- One LCG step (Knuth's MMIX multiplier), truncated to 64 bits. -/
def lcgNext (s : Nat) : Nat :=
  (6364136223846793005 * s + 1442695040888963407) % 2 ^ 64

/-- One draw from the generator: new output value and advanced state. -/
def PyRandom.next (r : PyRandom) : Nat × PyRandom :=
  let s := lcgNext r.state
  (s >>> 33, ⟨s⟩)

/-- The sequence of the first `n` draws from generator `r`. -/
def PyRandom.draws (r : PyRandom) : Nat → List Nat
  | 0 => []
  | n + 1 =>
    let (v, r') := r.next
    v :: r'.draws n

/-- `random.Random(seed)`: a fresh generator initialized from exactly
`seed` (reduced into the 64-bit state space; `Int.emod` keeps negative
seeds well defined). -/
def mkRandom (seed : Int) : PyRandom :=
  ⟨(seed.emod (2 ^ 64)).toNat⟩

/-- `random.getrandbits(64)` on the process-wide generator. -/
def getrandbits64 (g : PyRandom) : Nat × PyRandom :=
  let s := lcgNext g.state
  (s, ⟨s⟩)

/-- Outcome of one collaborator sub-call per settle pass: `sim.has_gui()`,
`sim.has_rtx_sensors()`, `sim.render()`, indexed by the pass number. -/
structure Sim where
  has_gui : Nat → Except Exn Bool
  has_rtx_sensors : Nat → Except Exn Bool
  render : Nat → Except Exn Unit

/-- A sensor registered on the scene; `update i` is the outcome of
`sensor.update(dt=0)` on pass `i`. -/
structure Sensor where
  update : Nat → Except Exn Unit

/-- The handler's scene.  `update i` is the outcome of the `i`-th
`scene.update(dt=0)` call; `sensors` is the (insertion-ordered) mapping of
sensor name to sensor, `[]` also covering a scene without a `sensors`
attribute (`getattr(scene, "sensors", {})`). -/
structure Scene where
  update : Nat → Except Exn Unit
  sensors : List (String × Sensor)

/-- The external handler object: `scene` and `sim` attributes, absent
attributes modelled as `none` (the source reads them with
`getattr(..., None)`). -/
structure Handler where
  scene : Option Scene
  sim : Option Sim

/-- The randomizer instance state (`BaseRandomizerType.__init__` fields). -/
structure BaseRandomizerType where
  handler : Option Handler
  randomizer_options : List (String × String)
  _seed : Option Int
  _rng : Option PyRandom

/-- `set_seed(seed)`: if `seed` is `None`, derive one from the process-wide
generator via `getrandbits(64)`; store the resolved integer seed and replace
the owned RNG with `random.Random(self._seed)`.  Returns the updated
instance and the (possibly advanced) process-wide generator state. -/
def BaseRandomizerType.set_seed (r : BaseRandomizerType) (seed : Option Int)
    (g : PyRandom) : BaseRandomizerType × PyRandom :=
  let (seed', g') :=
    match seed with
    | none =>
      let (b, g') := getrandbits64 g
      ((b : Int), g')
    | some s => (s, g)
  ({ r with _seed := some seed', _rng := some (mkRandom seed') }, g')

/-- `__init__(*, seed=None, **kwargs)`: fields start absent; if `seed` is
not `None`, `set_seed(seed)` is called. -/
def BaseRandomizerType.init (seed : Option Int) (kwargs : List (String × String))
    (g : PyRandom) : BaseRandomizerType × PyRandom :=
  let r : BaseRandomizerType :=
    { handler := none, randomizer_options := kwargs, _seed := none, _rng := none }
  match seed with
  | none => (r, g)
  | some s => r.set_seed (some s) g

/-- The `seed` read accessor: returns the current seed. -/
def BaseRandomizerType.seed (r : BaseRandomizerType) : Option Int :=
  r._seed

/-- The `rng` read accessor: if `self._rng is None`, calls
`set_seed(self._seed)` first; returns the owned generator plus the updated
instance and process-wide generator state. -/
def BaseRandomizerType.rng (r : BaseRandomizerType) (g : PyRandom) :
    PyRandom × BaseRandomizerType × PyRandom :=
  match r._rng with
  | some rg => (rg, r, g)
  | none =>
    let (r', g') := r.set_seed r._seed g
    (r'._rng.getD (mkRandom 0), r', g')

/-- `bind_handler(handler, *args, **kwargs)`: stores the handler reference,
discarding the extra context. -/
def BaseRandomizerType.bind_handler (r : BaseRandomizerType) (h : Handler) :
    BaseRandomizerType :=
  { r with handler := some h }

/-- `__call__`: the base implementation is `pass` — the instance state is
untouched. -/
def BaseRandomizerType.call (r : BaseRandomizerType) : BaseRandomizerType :=
  r

/-- The draw sequence of the instance's owned generator (the default is only
reached when no generator exists). -/
def BaseRandomizerType.drawSeq (r : BaseRandomizerType) (n : Nat) : List Nat :=
  (r._rng.getD (mkRandom 0)).draws n

/-! ## The render-settle barrier -/

/-- Log levels used by the barrier. -/
inductive LogLevel
  | debug
  | warning
deriving DecidableEq, Repr

/-- Observable events of a barrier run: collaborator calls attempted and
log entries emitted, in program order. -/
inductive Event
  | moduleImport (module_ : String)
  | matlibWaitCall (name : String)
  | getInstanceCall
  | sceneUpdateCall (i : Nat)
  | simRenderCall (i : Nat)
  | sensorUpdateCall (name : String) (i : Nat)
  | asyncWaitCall
  | log (lvl : LogLevel) (msg : String)
deriving DecidableEq, Repr

/-- Result of running a piece of barrier code: the event trace it produced,
and the exception escaping from it to its caller (`none` when it returns
normally). -/
abbrev EResult := List Event × Option Exn

/-- Sequencing: run `a`; if it escaped with an exception, `b` never runs. -/
def eseq (a b : EResult) : EResult :=
  match a.2 with
  | some _ => a
  | none => (a.1 ++ b.1, b.2)

/-- `try: body except Exception as e: handler(e)` — the handler's log
output is appended to the partial trace of the body; nothing escapes. -/
def pyTryAll (body : EResult) (handler_ : Exn → List Event) : EResult :=
  match body.2 with
  | none => body
  | some e => (body.1 ++ handler_ e, none)

/-- The material-library collaborator singleton, probed by `getattr` for
four differently named zero-argument wait methods. -/
structure MatLibInstance where
  wait_for_pending_refreshes : Option (Except Exn Unit)
  wait_for_pending_compiles : Option (Except Exn Unit)
  wait_for_pending_compile : Option (Except Exn Unit)
  wait_for_pending_tasks : Option (Except Exn Unit)

/-- `getattr(instance, name, None)` restricted to the probed names. -/
def MatLibInstance.getattr (inst : MatLibInstance) : String → Option (Except Exn Unit)
  | "wait_for_pending_refreshes" => inst.wait_for_pending_refreshes
  | "wait_for_pending_compiles" => inst.wait_for_pending_compiles
  | "wait_for_pending_compile" => inst.wait_for_pending_compile
  | "wait_for_pending_tasks" => inst.wait_for_pending_tasks
  | _ => none

/-- The fixed priority order of probed method names. -/
def probeNames : List String :=
  ["wait_for_pending_refreshes", "wait_for_pending_compiles",
   "wait_for_pending_compile", "wait_for_pending_tasks"]

/-- The `omni.kit.material.library` module: an optional module-level wait
function and an optional `get_instance` accessor (whose call may raise). -/
structure MatLibModule where
  wait_for_pending_refreshes : Option (Except Exn Unit)
  get_instance : Option (Except Exn MatLibInstance)

/-- The import environment of the barrier: the material-library module and
the async-engine collaborator, each absent when its import raises
`ImportError`.  The async entry folds `get_async_engine().wait_for_tasks()`
into one outcome. -/
structure Env where
  matlib : Option MatLibModule
  async_engine : Option (Except Exn Unit)

/-- The `for attr_name in (...)` probe loop over the singleton: call the
first callable wait method found (its exception escapes to the enclosing
`try`); log at debug level when none is found (`waited` stayed false). -/
def probeLoop (inst : MatLibInstance) : List String → EResult
  | [] => ([.log .debug "Material library exposes no pending-refresh wait API; continuing"], none)
  | n :: rest =>
    match inst.getattr n with
    | none => probeLoop inst rest
    | some w =>
      match w with
      | .ok _ => ([.matlibWaitCall n], none)
      | .error e => ([.matlibWaitCall n], some e)

/-- Body of the `try` in `_wait_for_material_library` after a successful
import: prefer the module-level wait function; otherwise obtain the
singleton and probe it; log at debug level when no wait API exists. -/
def matlibTryBody (m : MatLibModule) : EResult :=
  match m.wait_for_pending_refreshes with
  | some w =>
    match w with
    | .ok _ => ([.matlibWaitCall "wait_for_pending_refreshes"], none)
    | .error e => ([.matlibWaitCall "wait_for_pending_refreshes"], some e)
  | none =>
    match m.get_instance with
    | none => ([.log .debug "Material library exposes no pending-refresh wait API; continuing"], none)
    | some gi =>
      match gi with
      | .error e => ([.getInstanceCall], some e)
      | .ok inst => eseq ([.getInstanceCall], none) (probeLoop inst probeNames)

/-- `_wait_for_material_library`: the whole body sits in a `try`;
`ImportError` (modelled as an absent module) logs at debug level, any other
exception logs at warning level.  Nothing escapes. -/
def _wait_for_material_library (env : Env) : EResult :=
  match env.matlib with
  | none =>
    ([.moduleImport "omni.kit.material.library",
      .log .debug "Material library not available; skipping wait"], none)
  | some m =>
    pyTryAll (eseq ([.moduleImport "omni.kit.material.library"], none) (matlibTryBody m))
      (fun e => [.log .warning ("Failed to wait for material refreshes: " ++ e)])

/-- Body of the per-pass render `try`: `if sim.has_gui() or
sim.has_rtx_sensors(): sim.render()`, with the `or` short-circuiting; any
exception escapes to the enclosing `try`. -/
def renderBody (s : Sim) (i : Nat) : EResult :=
  match s.has_gui i with
  | .error e => ([], some e)
  | .ok b =>
    match (if b then Except.ok true else s.has_rtx_sensors i) with
    | .error e => ([], some e)
    | .ok false => ([], none)
    | .ok true =>
      match s.render i with
      | .ok _ => ([.simRenderCall i], none)
      | .error e => ([.simRenderCall i], some e)

/-- The per-pass render step: skipped when the handler has no `sim`; any
exception is caught and logged at debug level, not aborting the pass. -/
def renderPhase (sim : Option Sim) (i : Nat) : EResult :=
  match sim with
  | none => ([], none)
  | some s =>
    pyTryAll (renderBody s i)
      (fun e => [.log .debug ("Sim render during settle failed: " ++ e)])

/-- One sensor's `update(dt=0)` on pass `i`, with its own `try`: a failure
is logged at debug level and does not escape. -/
def sensorStep (name : String) (s : Sensor) (i : Nat) : EResult :=
  pyTryAll ([.sensorUpdateCall name i],
      match s.update i with
      | .ok _ => none
      | .error e => some e)
    (fun e => [.log .debug ("Sensor update during settle failed: " ++ e)])

/-- The `for sensor in sensors.values()` sweep of pass `i`: each sensor is
attempted independently. -/
def sensorPhase (sensors : List (String × Sensor)) (i : Nat) : EResult :=
  match sensors with
  | [] => ([], none)
  | p :: rest => eseq (sensorStep p.1 p.2 i) (sensorPhase rest i)

/-- The settle loop: `n` remaining passes, `i` the index of the next
`scene.update(dt=0)` call.  A scene-update failure is logged at debug level
and breaks out of the loop; otherwise render and sensor steps follow, then
the next pass. -/
def settleLoop (scene : Scene) (sim : Option Sim) : Nat → Nat → EResult
  | 0, _ => ([], none)
  | Nat.succ n, i =>
    match scene.update i with
    | .error e =>
      ([.sceneUpdateCall i, .log .debug ("Scene update during settle failed: " ++ e)], none)
    | .ok _ =>
      eseq ([.sceneUpdateCall i], none)
        (eseq (renderPhase sim i)
          (eseq (sensorPhase scene.sensors i)
            (settleLoop scene sim n (i + 1))))

/-- `_settle_renderer_frames(settle_passes=...)`: a no-op without a bound
handler or without a scene on it; otherwise `max(0, settle_passes)` passes.
The instance state is returned unchanged (the method never writes `self`). -/
def BaseRandomizerType._settle_renderer_frames (r : BaseRandomizerType)
    (settle_passes : Int) : BaseRandomizerType × EResult :=
  (r,
    match r.handler with
    | none => ([], none)
    | some hd =>
      match hd.scene with
      | none => ([], none)
      | some scene => settleLoop scene hd.sim (max 0 settle_passes).toNat 0)

/-- `_wait_for_async_engine`: import plus
`get_async_engine().wait_for_tasks()` inside one `try`; `ImportError` logs
at debug level, any other exception logs at warning level.  Nothing
escapes. -/
def _wait_for_async_engine (env : Env) : EResult :=
  match env.async_engine with
  | none =>
    ([.moduleImport "omni.kit.async_engine",
      .log .debug "Omniverse async engine not available; skipping wait_for_tasks"], none)
  | some (.ok _) => ([.moduleImport "omni.kit.async_engine", .asyncWaitCall], none)
  | some (.error e) =>
    ([.moduleImport "omni.kit.async_engine", .asyncWaitCall,
      .log .warning ("Failed to wait for async tasks: " ++ e)], none)

/-- `_sync_visual_updates(wait_for_materials=False, settle_passes=3)`: the
three phases in order — material wait (only when requested), settle passes,
async flush — each later phase running only if the earlier one did not
raise.  The instance state is returned unchanged. -/
def BaseRandomizerType._sync_visual_updates (r : BaseRandomizerType) (env : Env)
    (wait_for_materials : Bool) (settle_passes : Int) :
    BaseRandomizerType × EResult :=
  ((r._settle_renderer_frames settle_passes).1,
    eseq (if wait_for_materials then _wait_for_material_library env else ([], none))
      (eseq (r._settle_renderer_frames settle_passes).2
        (_wait_for_async_engine env)))

/-- The seed/RNG consistency invariant: whenever the owned generator is
non-absent, the stored seed is a non-absent integer. -/
def SeedInvariant (r : BaseRandomizerType) : Prop :=
  r._rng.isSome = true → r._seed.isSome = true

/-- Events that are `scene.update(dt=0)` attempts. -/
def isSceneUpdateEvent : Event → Bool
  | .sceneUpdateCall _ => true
  | _ => false

/-- Events that can be produced inside a settle pass after the scene
update: render attempts, sensor-update attempts, debug log entries. -/
def innerEvt : Event → Bool
  | .simRenderCall _ => true
  | .sensorUpdateCall _ _ => true
  | .log .debug _ => true
  | _ => false

/-- Events a settle phase can produce. -/
def settleEvt (ev : Event) : Bool :=
  isSceneUpdateEvent ev || innerEvt ev

/-- Events that locate or call the material-library collaborator: its
import, its singleton accessor, and any of its wait functions/methods. -/
def isMatlibEvent : Event → Bool
  | .moduleImport m => m == "omni.kit.material.library"
  | .matlibWaitCall _ => true
  | .getInstanceCall => true
  | _ => false

/-- Warning-level log entries. -/
def isWarningLog : Event → Bool
  | .log .warning _ => true
  | _ => false

/-! ## Lemmas about seeding -/

theorem set_seed_seed_isSome (r : BaseRandomizerType) (seed : Option Int)
    (g : PyRandom) : ((r.set_seed seed g).1)._seed.isSome = true := by
  cases seed <;> rfl

theorem set_seed_rng_isSome (r : BaseRandomizerType) (seed : Option Int)
    (g : PyRandom) : ((r.set_seed seed g).1)._rng.isSome = true := by
  cases seed <;> rfl

theorem set_seed_invariant (r : BaseRandomizerType) (seed : Option Int)
    (g : PyRandom) : SeedInvariant (r.set_seed seed g).1 :=
  fun _ => set_seed_seed_isSome r seed g

/-! ## Claim theorems: seeding -/

/-- C1: for every fixed integer seed `S`, two independently constructed
`BaseRandomizerType` instances on which `set_seed S` was called hold
generators producing identical draw sequences of equal length — the draw
sequence is a function of `S` alone, independent of the prior instance
state and of the process-wide generator state. -/
theorem set_seed_deterministic_draws (r₁ r₂ : BaseRandomizerType)
    (g₁ g₂ : PyRandom) (S : Int) (n : Nat) :
    (r₁.set_seed (some S) g₁).1.drawSeq n = (r₂.set_seed (some S) g₂).1.drawSeq n
    ∧ ((r₁.set_seed (some S) g₁).1.drawSeq n).length
        = ((r₂.set_seed (some S) g₂).1.drawSeq n).length := by
  exact ⟨rfl, rfl⟩

/-- C4: when no generator exists yet, reading the `rng` accessor calls
`set_seed` with the currently stored seed (instance and global state agree
with an explicit `set_seed` call), after which the `seed` accessor is
non-absent and the owned generator is exactly the one returned; a second
`rng` access returns the same generator with both states unchanged
(`set_seed` is not called again). -/
theorem rng_lazy_init (r : BaseRandomizerType) (g : PyRandom)
    (h : r._rng = none) :
    (r.rng g).2.1 = (r.set_seed r._seed g).1
    ∧ (r.rng g).2.2 = (r.set_seed r._seed g).2
    ∧ ((r.rng g).2.1).seed.isSome = true
    ∧ ((r.rng g).2.1)._rng = some (r.rng g).1
    ∧ ((r.rng g).2.1).rng ((r.rng g).2.2)
        = ((r.rng g).1, (r.rng g).2.1, (r.rng g).2.2) := by
  obtain ⟨hd, opts, sd, rg⟩ := r
  cases rg with
  | some x => exact Option.noConfusion h
  | none => cases sd <;> exact ⟨rfl, rfl, rfl, rfl, rfl⟩

/-- Witness for C4 at a concrete instance that stores a seed but owns no
generator yet. -/
theorem rng_lazy_init_witness :
    ((⟨none, [], some 5, none⟩ : BaseRandomizerType)._rng = none)
    ∧ (((⟨none, [], some 5, none⟩ : BaseRandomizerType).rng ⟨0⟩).2.1).seed.isSome = true
    ∧ ((((⟨none, [], some 5, none⟩ : BaseRandomizerType).rng ⟨0⟩).2.1).rng
          (((⟨none, [], some 5, none⟩ : BaseRandomizerType).rng ⟨0⟩).2.2))
        = ((((⟨none, [], some 5, none⟩ : BaseRandomizerType).rng ⟨0⟩)).1,
           (((⟨none, [], some 5, none⟩ : BaseRandomizerType).rng ⟨0⟩)).2.1,
           (((⟨none, [], some 5, none⟩ : BaseRandomizerType).rng ⟨0⟩)).2.2) :=
  ⟨rfl, (rng_lazy_init ⟨none, [], some 5, none⟩ ⟨0⟩ rfl).2.2.1,
    (rng_lazy_init ⟨none, [], some 5, none⟩ ⟨0⟩ rfl).2.2.2.2⟩

/-- C5: `set_seed s` always succeeds, stores `s` as the resolved seed,
replaces the owned RNG with a fresh generator initialized from exactly `s`
(leaving the process-wide generator untouched); draws after reseeding equal
those of a fresh generator seeded with `s`, independent of any prior
instance state and hence of any draws made before reseeding. -/
theorem set_seed_reset (r : BaseRandomizerType) (g : PyRandom) (s : Int) :
    (r.set_seed (some s) g).1._seed = some s
    ∧ (r.set_seed (some s) g).1._rng = some (mkRandom s)
    ∧ (r.set_seed (some s) g).2 = g
    ∧ (∀ n, (r.set_seed (some s) g).1.drawSeq n = (mkRandom s).draws n)
    ∧ (∀ (r₂ : BaseRandomizerType) (g₂ : PyRandom) (n : Nat),
        (r.set_seed (some s) g).1.drawSeq n = (r₂.set_seed (some s) g₂).1.drawSeq n) := by
  exact ⟨rfl, rfl, rfl, fun _ => rfl, fun _ _ _ => rfl⟩

/-- C10: every operation of `BaseRandomizerType` — construction, `set_seed`,
the `rng` accessor, `bind_handler`, `__call__`, and the settle barrier —
preserves the invariant that a non-absent generator implies a non-absent
stored integer seed. -/
theorem seedInvariant_all_ops :
    (∀ (seed : Option Int) (kwargs : List (String × String)) (g : PyRandom),
        SeedInvariant (BaseRandomizerType.init seed kwargs g).1)
    ∧ (∀ (r : BaseRandomizerType) (seed : Option Int) (g : PyRandom),
        SeedInvariant (r.set_seed seed g).1)
    ∧ (∀ (r : BaseRandomizerType) (g : PyRandom),
        SeedInvariant r → SeedInvariant (r.rng g).2.1)
    ∧ (∀ (r : BaseRandomizerType) (h : Handler),
        SeedInvariant r → SeedInvariant (r.bind_handler h))
    ∧ (∀ (r : BaseRandomizerType), SeedInvariant r → SeedInvariant r.call)
    ∧ (∀ (r : BaseRandomizerType) (N : Int),
        SeedInvariant r → SeedInvariant (r._settle_renderer_frames N).1)
    ∧ (∀ (r : BaseRandomizerType) (env : Env) (w : Bool) (N : Int),
        SeedInvariant r → SeedInvariant (r._sync_visual_updates env w N).1) := by
  refine ⟨?_, set_seed_invariant, ?_, fun r h hi => hi, fun r hi => hi,
    fun r N hi => hi, fun r env w N hi => hi⟩
  · intro seed kwargs g
    cases seed with
    | none => exact fun h => nomatch h
    | some s => exact set_seed_invariant _ _ _
  · intro r g hi
    cases hrg : r._rng with
    | some x =>
      simpa only [BaseRandomizerType.rng, hrg] using hi
    | none =>
      simpa only [BaseRandomizerType.rng, hrg] using set_seed_invariant r r._seed g

/-- Witness for C10 at concrete instances: `bind_handler` on a fully seeded
instance and the `rng` accessor on a fresh unseeded instance both yield
invariant-satisfying states. -/
theorem seedInvariant_all_ops_witness :
    SeedInvariant ((⟨none, [], some 7, some (mkRandom 7)⟩ : BaseRandomizerType).bind_handler
        ⟨none, none⟩)
    ∧ SeedInvariant ((⟨none, [], none, none⟩ : BaseRandomizerType).rng ⟨0⟩).2.1 :=
  ⟨seedInvariant_all_ops.2.2.2.1 ⟨none, [], some 7, some (mkRandom 7)⟩ ⟨none, none⟩
      (fun _ => rfl),
    seedInvariant_all_ops.2.2.1 ⟨none, [], none, none⟩ ⟨0⟩ (fun h => nomatch h)⟩

/-! ## Lemmas about the barrier combinators -/

theorem eseq_none {a : EResult} (b : EResult) (h : a.2 = none) :
    eseq a b = (a.1 ++ b.1, b.2) := by
  simp [eseq, h]

theorem eseq_some {a : EResult} (b : EResult) {e : Exn} (h : a.2 = some e) :
    eseq a b = a := by
  simp [eseq, h]

theorem pyTryAll_none {body : EResult} (f : Exn → List Event) (h : body.2 = none) :
    pyTryAll body f = body := by
  simp [pyTryAll, h]

theorem pyTryAll_some {body : EResult} (f : Exn → List Event) {e : Exn}
    (h : body.2 = some e) : pyTryAll body f = (body.1 ++ f e, none) := by
  simp [pyTryAll, h]

theorem pyTryAll_snd (body : EResult) (f : Exn → List Event) :
    (pyTryAll body f).2 = none := by
  cases hb : body.2 with
  | none => rw [pyTryAll_none f hb, hb]
  | some e => rw [pyTryAll_some f hb]

theorem pyTryAll_mem {P : Event → Prop} {body : EResult} {f : Exn → List Event}
    (hb : ∀ ev ∈ body.1, P ev)
    (hf : ∀ e, ∀ ev ∈ f e, P ev) :
    ∀ ev ∈ (pyTryAll body f).1, P ev := by
  intro ev hev
  cases hx : body.2 with
  | none => rw [pyTryAll_none f hx] at hev; exact hb ev hev
  | some e =>
    rw [pyTryAll_some f hx] at hev
    rcases List.mem_append.mp hev with h | h
    · exact hb ev h
    · exact hf e ev h

theorem eseq_mem {P : Event → Prop} {a b : EResult}
    (ha : ∀ ev ∈ a.1, P ev) (hb : ∀ ev ∈ b.1, P ev) :
    ∀ ev ∈ (eseq a b).1, P ev := by
  intro ev hev
  cases hx : a.2 with
  | none =>
    rw [eseq_none b hx] at hev
    rcases List.mem_append.mp hev with h | h
    · exact ha ev h
    · exact hb ev h
  | some e => rw [eseq_some b hx] at hev; exact ha ev hev

/-! ## Lemmas: nothing escapes each phase -/

theorem matlib_snd (env : Env) : (_wait_for_material_library env).2 = none := by
  unfold _wait_for_material_library
  cases env.matlib with
  | none => rfl
  | some m => exact pyTryAll_snd _ _

theorem async_snd (env : Env) : (_wait_for_async_engine env).2 = none := by
  unfold _wait_for_async_engine
  rcases env.async_engine with _ | v
  · rfl
  · cases v <;> rfl

theorem renderPhase_snd (sim : Option Sim) (i : Nat) : (renderPhase sim i).2 = none := by
  unfold renderPhase
  cases sim with
  | none => rfl
  | some s => exact pyTryAll_snd _ _

theorem sensorStep_snd (name : String) (s : Sensor) (i : Nat) :
    (sensorStep name s i).2 = none :=
  pyTryAll_snd _ _

theorem sensorPhase_snd (sensors : List (String × Sensor)) (i : Nat) :
    (sensorPhase sensors i).2 = none := by
  induction sensors with
  | nil => rfl
  | cons p rest ih =>
    show (eseq (sensorStep p.1 p.2 i) (sensorPhase rest i)).2 = none
    rw [eseq_none _ (sensorStep_snd p.1 p.2 i)]
    exact ih

theorem settleLoop_snd (scene : Scene) (sim : Option Sim) :
    ∀ n i, (settleLoop scene sim n i).2 = none := by
  intro n
  induction n with
  | zero => intro i; rfl
  | succ n ih =>
    intro i
    show (match scene.update i with
      | .error e =>
        ([.sceneUpdateCall i, .log .debug ("Scene update during settle failed: " ++ e)], none)
      | .ok _ =>
        eseq ([.sceneUpdateCall i], none)
          (eseq (renderPhase sim i)
            (eseq (sensorPhase scene.sensors i)
              (settleLoop scene sim n (i + 1)))) : EResult).2 = none
    cases scene.update i with
    | error e => rfl
    | ok u =>
      rw [eseq_none _ rfl, eseq_none _ (renderPhase_snd sim i),
        eseq_none _ (sensorPhase_snd scene.sensors i)]
      exact ih (i + 1)

theorem settle_frames_snd (r : BaseRandomizerType) (N : Int) :
    ((r._settle_renderer_frames N).2).2 = none := by
  obtain ⟨hdl, opts, sd, rg⟩ := r
  cases hdl with
  | none => rfl
  | some hd =>
    obtain ⟨sc, sm⟩ := hd
    cases sc with
    | none => rfl
    | some scene => exact settleLoop_snd scene sm _ 0

/-! ## Claim theorem: the barrier never raises -/

/-- C2: for every binding state of the randomizer (handler absent, handler
with no scene, scene with no sensors — all instances of the quantified
state) and every argument pair, `_sync_visual_updates` returns normally:
no exception escapes to its caller, whatever the collaborator outcomes in
`env` and in the handler's scene/sim/sensors are. -/
theorem sync_never_raises (r : BaseRandomizerType) (env : Env) (w : Bool)
    (N : Int) : ((r._sync_visual_updates env w N).2).2 = none := by
  unfold BaseRandomizerType._sync_visual_updates
  have hm : (if w then _wait_for_material_library env else (([], none) : EResult)).2 = none := by
    cases w with
    | true => simpa using matlib_snd env
    | false => rfl
  rw [eseq_none _ hm, eseq_none _ (settle_frames_snd r N)]
  exact async_snd env

/-! ## Lemmas: classifying the events each phase can produce -/

theorem renderBody_mem (s : Sim) (i : Nat) :
    ∀ ev ∈ (renderBody s i).1, innerEvt ev = true := by
  intro ev hev
  unfold renderBody at hev
  repeat' split at hev
  all_goals first
    | exact absurd hev (List.not_mem_nil ev)
    | (rw [List.mem_singleton] at hev; subst hev; rfl)

theorem renderPhase_mem (sim : Option Sim) (i : Nat) :
    ∀ ev ∈ (renderPhase sim i).1, innerEvt ev = true := by
  cases sim with
  | none => intro ev hev; exact absurd hev (List.not_mem_nil ev)
  | some s =>
    exact pyTryAll_mem (renderBody_mem s i)
      (fun e ev hev => by rw [List.mem_singleton] at hev; subst hev; rfl)

theorem sensorStep_mem (name : String) (s : Sensor) (i : Nat) :
    ∀ ev ∈ (sensorStep name s i).1,
      (ev = Event.sensorUpdateCall name i ∨ innerEvt ev = true) := by
  refine pyTryAll_mem ?_ ?_
  · intro ev hev; rw [List.mem_singleton] at hev; exact Or.inl hev
  · intro e ev hev; rw [List.mem_singleton] at hev; subst hev; exact Or.inr rfl

theorem sensorPhase_mem (sensors : List (String × Sensor)) (i : Nat) :
    ∀ ev ∈ (sensorPhase sensors i).1, innerEvt ev = true := by
  induction sensors with
  | nil => intro ev hev; exact absurd hev (List.not_mem_nil ev)
  | cons p rest ih =>
    refine eseq_mem ?_ ih
    intro ev hev
    rcases sensorStep_mem p.1 p.2 i ev hev with h | h
    · subst h; rfl
    · exact h

theorem settleLoop_mem (scene : Scene) (sim : Option Sim) :
    ∀ n i, ∀ ev ∈ (settleLoop scene sim n i).1, settleEvt ev = true := by
  intro n
  induction n with
  | zero => intro i ev hev; exact absurd hev (List.not_mem_nil ev)
  | succ n ih =>
    intro i ev hev
    unfold settleLoop at hev
    split at hev
    · simp only [List.mem_cons, List.mem_singleton, List.not_mem_nil, or_false] at hev
      rcases hev with h | h <;> (subst h; rfl)
    · have h1 : ∀ ev ∈ (([Event.sceneUpdateCall i], none) : EResult).1, settleEvt ev = true := by
        intro ev hev'; rw [List.mem_singleton] at hev'; subst hev'; rfl
      have h2 : ∀ ev ∈ (renderPhase sim i).1, settleEvt ev = true := by
        intro ev hev'
        have h := renderPhase_mem sim i ev hev'
        simp [settleEvt, h]
      have h3 : ∀ ev ∈ (sensorPhase scene.sensors i).1, settleEvt ev = true := by
        intro ev hev'
        have h := sensorPhase_mem scene.sensors i ev hev'
        simp [settleEvt, h]
      exact eseq_mem h1 (eseq_mem h2 (eseq_mem h3 (ih (i + 1)))) ev hev

theorem settle_frames_mem {P : Event → Prop} (r : BaseRandomizerType) (N : Int)
    (h : ∀ ev, settleEvt ev = true → P ev) :
    ∀ ev ∈ ((r._settle_renderer_frames N).2).1, P ev := by
  obtain ⟨hdl, opts, sd, rg⟩ := r
  cases hdl with
  | none => intro ev hev; exact absurd hev (List.not_mem_nil ev)
  | some hd =>
    obtain ⟨sc, sm⟩ := hd
    cases sc with
    | none => intro ev hev; exact absurd hev (List.not_mem_nil ev)
    | some scene =>
      intro ev hev
      exact h ev (settleLoop_mem scene sm _ 0 ev hev)

theorem probeLoop_mem {P : Event → Prop} (inst : MatLibInstance)
    (hwait : ∀ n, P (Event.matlibWaitCall n))
    (hdbg : ∀ msg, P (Event.log .debug msg)) :
    ∀ names, ∀ ev ∈ (probeLoop inst names).1, P ev := by
  intro names
  induction names with
  | nil =>
    intro ev hev
    unfold probeLoop at hev
    rw [List.mem_singleton] at hev; subst hev; exact hdbg _
  | cons n rest ih =>
    intro ev hev
    unfold probeLoop at hev
    split at hev
    · exact ih ev hev
    · split at hev <;> (rw [List.mem_singleton] at hev; subst hev; exact hwait _)

theorem matlibTryBody_mem {P : Event → Prop} (m : MatLibModule)
    (hwait : ∀ n, P (Event.matlibWaitCall n)) (hget : P Event.getInstanceCall)
    (hdbg : ∀ msg, P (Event.log .debug msg)) :
    ∀ ev ∈ (matlibTryBody m).1, P ev := by
  intro ev hev
  unfold matlibTryBody at hev
  split at hev
  · split at hev <;> (rw [List.mem_singleton] at hev; subst hev; exact hwait _)
  · split at hev
    · rw [List.mem_singleton] at hev; subst hev; exact hdbg _
    · split at hev
      · rw [List.mem_singleton] at hev; subst hev; exact hget
      · rename_i inst2 hgi
        refine eseq_mem ?_ (probeLoop_mem inst2 hwait hdbg probeNames) ev hev
        intro ev hev'; rw [List.mem_singleton] at hev'; subst hev'; exact hget

theorem matlib_mem {P : Event → Prop} (env : Env)
    (himp : P (Event.moduleImport "omni.kit.material.library"))
    (hwait : ∀ n, P (Event.matlibWaitCall n)) (hget : P Event.getInstanceCall)
    (hdbg : ∀ msg, P (Event.log .debug msg))
    (hwarn : ∀ msg, P (Event.log .warning msg)) :
    ∀ ev ∈ (_wait_for_material_library env).1, P ev := by
  intro ev hev
  unfold _wait_for_material_library at hev
  split at hev
  · simp only [List.mem_cons, List.mem_singleton, List.not_mem_nil, or_false] at hev
    rcases hev with h | h
    · subst h; exact himp
    · subst h; exact hdbg _
  · refine pyTryAll_mem ?_ ?_ ev hev
    · refine eseq_mem ?_ (matlibTryBody_mem _ hwait hget hdbg)
      intro ev hev'; rw [List.mem_singleton] at hev'; subst hev'; exact himp
    · intro e ev hev'; rw [List.mem_singleton] at hev'; subst hev'; exact hwarn _

theorem async_mem {P : Event → Prop} (env : Env)
    (himp : P (Event.moduleImport "omni.kit.async_engine"))
    (hcall : P Event.asyncWaitCall)
    (hdbg : ∀ msg, P (Event.log .debug msg))
    (hwarn : ∀ msg, P (Event.log .warning msg)) :
    ∀ ev ∈ (_wait_for_async_engine env).1, P ev := by
  intro ev hev
  unfold _wait_for_async_engine at hev
  split at hev <;>
    simp only [List.mem_cons, List.mem_singleton, List.not_mem_nil, or_false] at hev
  · rcases hev with h | h
    · subst h; exact himp
    · subst h; exact hdbg _
  · rcases hev with h | h
    · subst h; exact himp
    · subst h; exact hcall
  · rcases hev with h | h | h
    · subst h; exact himp
    · subst h; exact hcall
    · subst h; exact hwarn _

theorem innerEvt_not_scene : ∀ ev, innerEvt ev = true → isSceneUpdateEvent ev = false := by
  intro ev h
  cases ev with
  | simRenderCall i => rfl
  | sensorUpdateCall n i => rfl
  | log lvl msg => rfl
  | sceneUpdateCall i => exact Bool.noConfusion h
  | moduleImport m => exact Bool.noConfusion h
  | matlibWaitCall n => exact Bool.noConfusion h
  | getInstanceCall => exact Bool.noConfusion h
  | asyncWaitCall => exact Bool.noConfusion h

theorem settleEvt_not_matlib : ∀ ev, settleEvt ev = true → isMatlibEvent ev = false := by
  intro ev h
  cases ev with
  | sceneUpdateCall i => rfl
  | simRenderCall i => rfl
  | sensorUpdateCall n i => rfl
  | log lvl msg => rfl
  | moduleImport m => exact Bool.noConfusion h
  | matlibWaitCall n => exact Bool.noConfusion h
  | getInstanceCall => exact Bool.noConfusion h
  | asyncWaitCall => exact Bool.noConfusion h

theorem renderPhase_no_scene (sim : Option Sim) (i j : Nat) :
    Event.sceneUpdateCall j ∉ (renderPhase sim i).1 := fun h =>
  Bool.noConfusion (renderPhase_mem sim i _ h)

theorem sensorPhase_no_scene (sensors : List (String × Sensor)) (i j : Nat) :
    Event.sceneUpdateCall j ∉ (sensorPhase sensors i).1 := fun h =>
  Bool.noConfusion (sensorPhase_mem sensors i _ h)

theorem countP_zero_of_mem {p : Event → Bool} {l : List Event}
    (h : ∀ ev ∈ l, p ev = false) : List.countP p l = 0 :=
  List.countP_eq_zero.mpr (fun a ha h2 => by rw [h a ha] at h2; exact Bool.noConfusion h2)

/-! ## Lemmas: the barrier trace decomposes into its three phases -/

theorem sync_trace (r : BaseRandomizerType) (env : Env) (w : Bool) (N : Int) :
    ((r._sync_visual_updates env w N).2).1
      = (if w then _wait_for_material_library env else (([], none) : EResult)).1
        ++ ((r._settle_renderer_frames N).2).1 ++ (_wait_for_async_engine env).1 := by
  have hm : (if w then _wait_for_material_library env else (([], none) : EResult)).2 = none := by
    cases w with
    | false => rfl
    | true => exact matlib_snd env
  unfold BaseRandomizerType._sync_visual_updates
  rw [eseq_none _ hm, eseq_none _ (settle_frames_snd r N)]
  simp [List.append_assoc]

theorem sync_trace_scene (scene : Scene) (sim : Option Sim)
    (opts : List (String × String)) (sd : Option Int) (rg : Option PyRandom)
    (env : Env) (w : Bool) (N : Int) :
    (((⟨some ⟨some scene, sim⟩, opts, sd, rg⟩ : BaseRandomizerType)._sync_visual_updates env w N).2).1
      = (if w then _wait_for_material_library env else (([], none) : EResult)).1
        ++ (settleLoop scene sim (max 0 N).toNat 0).1
        ++ (_wait_for_async_engine env).1 :=
  sync_trace ⟨some ⟨some scene, sim⟩, opts, sd, rg⟩ env w N

theorem settleLoop_succ (scene : Scene) (sim : Option Sim) (n i : Nat) :
    settleLoop scene sim (n + 1) i
      = match scene.update i with
        | .error e =>
          ([.sceneUpdateCall i, .log .debug ("Scene update during settle failed: " ++ e)], none)
        | .ok _ =>
          eseq ([.sceneUpdateCall i], none)
            (eseq (renderPhase sim i)
              (eseq (sensorPhase scene.sensors i)
                (settleLoop scene sim n (i + 1)))) := rfl

theorem settleLoop_succ_ok (scene : Scene) (sim : Option Sim) (n i : Nat)
    (h : scene.update i = Except.ok ()) :
    settleLoop scene sim (n + 1) i
      = eseq ([.sceneUpdateCall i], none)
          (eseq (renderPhase sim i)
            (eseq (sensorPhase scene.sensors i)
              (settleLoop scene sim n (i + 1)))) := by
  rw [settleLoop_succ, h]

theorem settleLoop_succ_err (scene : Scene) (sim : Option Sim) (n i : Nat)
    (e : Exn) (h : scene.update i = Except.error e) :
    settleLoop scene sim (n + 1) i
      = ([.sceneUpdateCall i, .log .debug ("Scene update during settle failed: " ++ e)], none) := by
  rw [settleLoop_succ, h]

theorem settleLoop_count_ok (scene : Scene) (sim : Option Sim)
    (hok : ∀ j, scene.update j = Except.ok ()) :
    ∀ n i, List.countP isSceneUpdateEvent (settleLoop scene sim n i).1 = n := by
  intro n
  induction n with
  | zero => intro i; rfl
  | succ n ih =>
    intro i
    have htrace := settleLoop_succ_ok scene sim n i (hok i)
    have hr : List.countP isSceneUpdateEvent (renderPhase sim i).1 = 0 :=
      countP_zero_of_mem (fun ev h => innerEvt_not_scene ev (renderPhase_mem sim i ev h))
    have hs : List.countP isSceneUpdateEvent (sensorPhase scene.sensors i).1 = 0 :=
      countP_zero_of_mem (fun ev h => innerEvt_not_scene ev (sensorPhase_mem scene.sensors i ev h))
    rw [htrace, eseq_none _ rfl, eseq_none _ (renderPhase_snd sim i),
      eseq_none _ (sensorPhase_snd scene.sensors i)]
    simp only [List.countP_append, hr, hs, ih (i + 1)]
    simp [List.countP_cons, isSceneUpdateEvent]
    omega

/-! ## Claim theorems: C7 and C8 -/

/-- C7: with `wait_for_materials = False`, the barrier never locates or
calls the material-library collaborator — its trace contains no
material-library import, no singleton access, and no wait-function or
wait-method invocation, whatever the environment, binding state or
`settle_passes`. -/
theorem matlib_untouched_when_disabled (r : BaseRandomizerType) (env : Env)
    (N : Int) :
    List.countP isMatlibEvent ((r._sync_visual_updates env false N).2).1 = 0 := by
  rw [sync_trace]
  simp only [List.countP_append]
  have h1 : List.countP isMatlibEvent ((r._settle_renderer_frames N).2).1 = 0 :=
    countP_zero_of_mem (settle_frames_mem r N settleEvt_not_matlib)
  have h2 : List.countP isMatlibEvent (_wait_for_async_engine env).1 = 0 :=
    countP_zero_of_mem (async_mem env (by decide) rfl (fun _ => rfl) (fun _ => rfl))
  simp [h1, h2]

/-- C8: with a bound handler that has a scene and no failing scene update,
the settle phase performs exactly `max 0 settle_passes` scene-update calls
(`settle_passes` may be any integer, negative values yielding zero
passes). -/
theorem settle_pass_count (scene : Scene) (sim : Option Sim)
    (opts : List (String × String)) (sd : Option Int) (rg : Option PyRandom)
    (env : Env) (w : Bool) (N : Int)
    (hok : ∀ j, scene.update j = Except.ok ()) :
    List.countP isSceneUpdateEvent
      (((⟨some ⟨some scene, sim⟩, opts, sd, rg⟩ : BaseRandomizerType)._sync_visual_updates env w N).2).1
      = (max 0 N).toNat := by
  rw [sync_trace_scene]
  simp only [List.countP_append]
  have h1 : List.countP isSceneUpdateEvent
      (if w then _wait_for_material_library env else (([], none) : EResult)).1 = 0 := by
    cases w with
    | false => rfl
    | true =>
      exact countP_zero_of_mem
        (matlib_mem env rfl (fun _ => rfl) rfl (fun _ => rfl) (fun _ => rfl))
  have h2 : List.countP isSceneUpdateEvent (settleLoop scene sim (max 0 N).toNat 0).1
      = (max 0 N).toNat := settleLoop_count_ok scene sim hok _ 0
  have h3 : List.countP isSceneUpdateEvent (_wait_for_async_engine env).1 = 0 :=
    countP_zero_of_mem (async_mem env rfl rfl (fun _ => rfl) (fun _ => rfl))
  rw [h1, h2, h3]
  omega

/-- Witness for C8 at a negative `settle_passes`: zero scene-update calls
occur. -/
theorem settle_pass_count_witness :
    List.countP isSceneUpdateEvent
      (((⟨some ⟨some ⟨fun _ => Except.ok (), []⟩, none⟩, [], none, none⟩ :
          BaseRandomizerType)._sync_visual_updates ⟨none, none⟩ false (-2)).2).1
      = (max 0 (-2 : Int)).toNat :=
  settle_pass_count ⟨fun _ => Except.ok (), []⟩ none [] none none ⟨none, none⟩
    false (-2) (fun _ => rfl)

/-! ## Lemmas: scene-update attempts when a pass fails -/

theorem settleLoop_mem_fail (scene : Scene) (sim : Option Sim) (k : Nat) (e : Exn)
    (herr : scene.update k = Except.error e)
    (hok : ∀ j, j < k → scene.update j = Except.ok ()) :
    ∀ n i j, i ≤ k → k < i + n →
      (Event.sceneUpdateCall j ∈ (settleLoop scene sim n i).1 ↔ (i ≤ j ∧ j ≤ k)) := by
  intro n
  induction n with
  | zero => intro i j hik hkn; exact absurd hkn (by omega)
  | succ n ih =>
    intro i j hik hkn
    rcases Nat.lt_or_ge i k with hlt | hge
    · rw [settleLoop_succ_ok scene sim n i (hok i hlt), eseq_none _ rfl,
        eseq_none _ (renderPhase_snd sim i), eseq_none _ (sensorPhase_snd scene.sensors i)]
      simp only [List.mem_append, List.mem_singleton, List.mem_cons, List.not_mem_nil,
        or_false]
      constructor
      · rintro (h | h | h | h)
        · injection h with h; omega
        · exact absurd h (renderPhase_no_scene sim i j)
        · exact absurd h (sensorPhase_no_scene scene.sensors i j)
        · have := ((ih (i + 1) j (by omega) (by omega)).mp h); omega
      · intro hj
        rcases Nat.eq_or_lt_of_le hj.1 with heq | hlt2
        · subst heq; exact Or.inl rfl
        · exact Or.inr (Or.inr (Or.inr
            ((ih (i + 1) j (by omega) (by omega)).mpr ⟨by omega, hj.2⟩)))
    · have hik2 : i = k := Nat.le_antisymm hik hge
      subst hik2
      rw [settleLoop_succ_err scene sim n i e herr]
      simp only [List.mem_cons, List.mem_singleton, List.not_mem_nil, or_false]
      constructor
      · rintro (h | h)
        · injection h with h; omega
        · exact absurd h (by simp)
      · intro hj
        have : j = i := by omega
        subst this
        exact Or.inl rfl

theorem matlib_no_scene (env : Env) (j : Nat) :
    Event.sceneUpdateCall j ∉ (_wait_for_material_library env).1 := fun h =>
  Bool.noConfusion
    (@matlib_mem (fun ev => isSceneUpdateEvent ev = false) env rfl (fun _ => rfl) rfl
      (fun _ => rfl) (fun _ => rfl) _ h)

theorem async_no_scene (env : Env) (j : Nat) :
    Event.sceneUpdateCall j ∉ (_wait_for_async_engine env).1 := fun h =>
  Bool.noConfusion
    (@async_mem (fun ev => isSceneUpdateEvent ev = false) env rfl rfl
      (fun _ => rfl) (fun _ => rfl) _ h)

/-! ## Claim theorem: C3 -/

/-- C3: with a bound handler that has a scene, `settle_passes = N` and the
first failing scene update at (0-based) index `k` within the pass budget,
the barrier attempts exactly the scene updates `0..k` — the trace contains
`sceneUpdateCall j` exactly for `j ≤ k`, so attempts `k+1..N-1` never occur
— and the async-task-flush phase is still attempted afterward (the trace
ends with the async phase's trace). -/
theorem settle_abort_on_scene_failure (scene : Scene) (sim : Option Sim)
    (opts : List (String × String)) (sd : Option Int) (rg : Option PyRandom)
    (env : Env) (w : Bool) (N : Int) (k : Nat) (e : Exn)
    (hok : ∀ j, j < k → scene.update j = Except.ok ())
    (herr : scene.update k = Except.error e)
    (hk : k < (max 0 N).toNat) :
    (∀ j, Event.sceneUpdateCall j
        ∈ (((⟨some ⟨some scene, sim⟩, opts, sd, rg⟩ :
            BaseRandomizerType)._sync_visual_updates env w N).2).1
      ↔ j ≤ k)
    ∧ ∃ t, (((⟨some ⟨some scene, sim⟩, opts, sd, rg⟩ :
          BaseRandomizerType)._sync_visual_updates env w N).2).1
        = t ++ (_wait_for_async_engine env).1 := by
  constructor
  · intro j
    rw [sync_trace_scene]
    simp only [List.mem_append]
    have hmat : Event.sceneUpdateCall j
        ∉ (if w then _wait_for_material_library env else (([], none) : EResult)).1 := by
      cases w with
      | false => exact List.not_mem_nil _
      | true => exact matlib_no_scene env j
    have hloop := settleLoop_mem_fail scene sim k e herr hok ((max 0 N).toNat) 0 j
      (Nat.zero_le k) (by omega)
    constructor
    · rintro ((h | h) | h)
      · exact absurd h hmat
      · have := hloop.mp h; omega
      · exact absurd h (async_no_scene env j)
    · intro hj
      exact Or.inl (Or.inr (hloop.mpr ⟨Nat.zero_le j, hj⟩))
  · exact ⟨_, sync_trace_scene scene sim opts sd rg env w N⟩

/-- Witness for C3: a scene whose very first update raises, with
`settle_passes = 3` — only scene update 0 is attempted, and the async
flush still runs. -/
theorem settle_abort_on_scene_failure_witness :
    (Event.sceneUpdateCall 0
        ∈ (((⟨some ⟨some ⟨fun _ => Except.error "boom", []⟩, none⟩, [], none, none⟩ :
            BaseRandomizerType)._sync_visual_updates ⟨none, none⟩ false 3).2).1
      ↔ 0 ≤ 0)
    ∧ ∃ t, (((⟨some ⟨some ⟨fun _ => Except.error "boom", []⟩, none⟩, [], none, none⟩ :
          BaseRandomizerType)._sync_visual_updates ⟨none, none⟩ false 3).2).1
        = t ++ (_wait_for_async_engine ⟨none, none⟩).1 :=
  ⟨(settle_abort_on_scene_failure ⟨fun _ => Except.error "boom", []⟩ none [] none none
      ⟨none, none⟩ false 3 0 "boom" (fun j hj => absurd hj (Nat.not_lt_zero j)) rfl
      (by decide)).1 0,
   (settle_abort_on_scene_failure ⟨fun _ => Except.error "boom", []⟩ none [] none none
      ⟨none, none⟩ false 3 0 "boom" (fun j hj => absurd hj (Nat.not_lt_zero j)) rfl
      (by decide)).2⟩

/-! ## Lemmas: each sensor is attempted in a pass -/

theorem sensorStep_head (name : String) (s : Sensor) (i : Nat) :
    Event.sensorUpdateCall name i ∈ (sensorStep name s i).1 := by
  unfold sensorStep
  cases hu : s.update i with
  | ok u =>
    rw [pyTryAll_none _ rfl]
    exact List.mem_singleton.mpr rfl
  | error e =>
    rw [pyTryAll_some _ rfl]
    exact List.mem_append.mpr (Or.inl (List.mem_singleton.mpr rfl))

theorem sensorPhase_mem_name (i : Nat) (nm : String) (s : Sensor) :
    ∀ sensors : List (String × Sensor), (nm, s) ∈ sensors →
      Event.sensorUpdateCall nm i ∈ (sensorPhase sensors i).1 := by
  intro sensors
  induction sensors with
  | nil => intro h; exact absurd h (List.not_mem_nil _)
  | cons p rest ih =>
    intro h
    have htr : sensorPhase (p :: rest) i = eseq (sensorStep p.1 p.2 i) (sensorPhase rest i) := rfl
    rw [htr, eseq_none _ (sensorStep_snd p.1 p.2 i), List.mem_append]
    rcases List.mem_cons.mp h with heq | hmem
    · subst heq
      exact Or.inl (sensorStep_head nm s i)
    · exact Or.inr (ih hmem)

theorem settleLoop_sensor (scene : Scene) (sim : Option Sim) (nm : String) (s : Sensor)
    (hmem : (nm, s) ∈ scene.sensors) :
    ∀ n i₀ i, i₀ ≤ i → i < i₀ + n → (∀ j, j ≤ i → scene.update j = Except.ok ()) →
      Event.sensorUpdateCall nm i ∈ (settleLoop scene sim n i₀).1 := by
  intro n
  induction n with
  | zero => intro i₀ i h1 h2 h3; exact absurd h2 (by omega)
  | succ n ih =>
    intro i₀ i h1 h2 h3
    rw [settleLoop_succ_ok scene sim n i₀ (h3 i₀ h1), eseq_none _ rfl,
      eseq_none _ (renderPhase_snd sim i₀), eseq_none _ (sensorPhase_snd scene.sensors i₀)]
    simp only [List.mem_append]
    rcases Nat.eq_or_lt_of_le h1 with heq | hlt
    · subst heq
      exact Or.inr (Or.inr (Or.inl (sensorPhase_mem_name i₀ nm s scene.sensors hmem)))
    · exact Or.inr (Or.inr (Or.inr (ih (i₀ + 1) i (by omega) (by omega) h3)))

/-! ## Claim theorem: C6 -/

/-- C6: within every executed settle pass, every sensor registered in the
scene's sensors mapping has its update invoked, whatever the outcomes of
the other sensors' updates are (a failing sensor does not block the rest):
the pass-`i` trace contains `sensorUpdateCall nm i` for every registered
`(nm, s)`. -/
theorem sensor_updates_independent (scene : Scene) (sim : Option Sim)
    (opts : List (String × String)) (sd : Option Int) (rg : Option PyRandom)
    (N : Int) (i : Nat) (nm : String) (s : Sensor)
    (hmem : (nm, s) ∈ scene.sensors)
    (hok : ∀ j, j ≤ i → scene.update j = Except.ok ())
    (hi : i < (max 0 N).toNat) :
    Event.sensorUpdateCall nm i
      ∈ (((⟨some ⟨some scene, sim⟩, opts, sd, rg⟩ :
          BaseRandomizerType)._settle_renderer_frames N).2).1 :=
  settleLoop_sensor scene sim nm s hmem ((max 0 N).toNat) 0 i (Nat.zero_le i)
    (by omega) hok

/-- Witness for C6: one pass over `{"cam1": ok_sensor, "cam2":
failing_sensor}` still updates `"cam1"`. -/
theorem sensor_updates_independent_witness :
    Event.sensorUpdateCall "cam1" 0
      ∈ (((⟨some ⟨some ⟨fun _ => Except.ok (),
            [("cam1", ⟨fun _ => Except.ok ()⟩), ("cam2", ⟨fun _ => Except.error "boom"⟩)]⟩,
            none⟩, [], none, none⟩ :
          BaseRandomizerType)._settle_renderer_frames 1).2).1 :=
  sensor_updates_independent
    ⟨fun _ => Except.ok (),
      [("cam1", ⟨fun _ => Except.ok ()⟩), ("cam2", ⟨fun _ => Except.error "boom"⟩)]⟩
    none [] none none 1 0 "cam1" ⟨fun _ => Except.ok ()⟩
    (List.Mem.head _) (fun j hj => rfl) (by decide)

/-! ## Lemmas: phase traces under specific collaborator outcomes -/

theorem matlib_import_eq (env : Env) (m : MatLibModule) (h : env.matlib = some m) :
    _wait_for_material_library env
      = pyTryAll
          (eseq ([.moduleImport "omni.kit.material.library"], none) (matlibTryBody m))
          (fun e => [.log .warning ("Failed to wait for material refreshes: " ++ e)]) := by
  unfold _wait_for_material_library
  rw [h]

theorem matlib_absent_eq (env : Env) (h : env.matlib = none) :
    _wait_for_material_library env
      = ([.moduleImport "omni.kit.material.library",
          .log .debug "Material library not available; skipping wait"], none) := by
  unfold _wait_for_material_library
  rw [h]

theorem async_absent_eq (env : Env) (h : env.async_engine = none) :
    _wait_for_async_engine env
      = ([.moduleImport "omni.kit.async_engine",
          .log .debug "Omniverse async engine not available; skipping wait_for_tasks"], none) := by
  unfold _wait_for_async_engine
  rw [h]

theorem async_err_eq (env : Env) (e : Exn) (h : env.async_engine = some (Except.error e)) :
    _wait_for_async_engine env
      = ([.moduleImport "omni.kit.async_engine", .asyncWaitCall,
          .log .warning ("Failed to wait for async tasks: " ++ e)], none) := by
  unfold _wait_for_async_engine
  rw [h]

theorem settleLoop_fail_log (scene : Scene) (sim : Option Sim) (k : Nat) (e : Exn)
    (hok : ∀ j, j < k → scene.update j = Except.ok ())
    (herr : scene.update k = Except.error e) :
    ∀ n i, i ≤ k → k < i + n →
      Event.log .debug ("Scene update during settle failed: " ++ e)
        ∈ (settleLoop scene sim n i).1 := by
  intro n
  induction n with
  | zero => intro i h1 h2; exact absurd h2 (by omega)
  | succ n ih =>
    intro i h1 h2
    rcases Nat.lt_or_ge i k with hlt | hge
    · rw [settleLoop_succ_ok scene sim n i (hok i hlt), eseq_none _ rfl,
        eseq_none _ (renderPhase_snd sim i), eseq_none _ (sensorPhase_snd scene.sensors i)]
      simp only [List.mem_append]
      exact Or.inr (Or.inr (Or.inr (ih (i + 1) (by omega) (by omega))))
    · have hik : i = k := Nat.le_antisymm h1 hge
      subst hik
      rw [settleLoop_succ_err scene sim n i e herr]
      simp

theorem settleLoop_pass_mem (scene : Scene) (sim : Option Sim) (ev : Event) (i : Nat)
    (hev : ev ∈ (renderPhase sim i).1 ∨ ev ∈ (sensorPhase scene.sensors i).1) :
    ∀ n i₀, i₀ ≤ i → i < i₀ + n → (∀ j, j ≤ i → scene.update j = Except.ok ()) →
      ev ∈ (settleLoop scene sim n i₀).1 := by
  intro n
  induction n with
  | zero => intro i₀ h1 h2 h3; exact absurd h2 (by omega)
  | succ n ih =>
    intro i₀ h1 h2 h3
    rw [settleLoop_succ_ok scene sim n i₀ (h3 i₀ h1), eseq_none _ rfl,
      eseq_none _ (renderPhase_snd sim i₀), eseq_none _ (sensorPhase_snd scene.sensors i₀)]
    simp only [List.mem_append]
    rcases Nat.eq_or_lt_of_le h1 with heq | hlt
    · subst heq
      rcases hev with h | h
      · exact Or.inr (Or.inl h)
      · exact Or.inr (Or.inr (Or.inl h))
    · exact Or.inr (Or.inr (Or.inr (ih (i₀ + 1) (by omega) (by omega) h3)))

theorem sensorPhase_fail_log (i : Nat) (nm : String) (s : Sensor) (e : Exn)
    (herr : s.update i = Except.error e) :
    ∀ sensors : List (String × Sensor), (nm, s) ∈ sensors →
      Event.log .debug ("Sensor update during settle failed: " ++ e)
        ∈ (sensorPhase sensors i).1 := by
  intro sensors
  induction sensors with
  | nil => intro h; exact absurd h (List.not_mem_nil _)
  | cons p rest ih =>
    intro h
    have htr : sensorPhase (p :: rest) i = eseq (sensorStep p.1 p.2 i) (sensorPhase rest i) := rfl
    rw [htr, eseq_none _ (sensorStep_snd p.1 p.2 i), List.mem_append]
    rcases List.mem_cons.mp h with heq | hmem
    · subst heq
      left
      show Event.log .debug ("Sensor update during settle failed: " ++ e)
        ∈ (sensorStep nm s i).1
      unfold sensorStep
      cases hu : s.update i with
      | ok u => rw [hu] at herr; exact Except.noConfusion herr
      | error e2 =>
        rw [hu] at herr
        injection herr with he2
        subst he2
        rw [pyTryAll_some _ rfl]
        simp
    · exact Or.inr (ih hmem)

/-! ## Claim C9: corrected -/

/-- C9 counterexample: the claim says every exception raised by a present
collaborator is logged at warning level.  With a bound handler whose
scene's first update raises, one settle pass produces a trace with NO
warning-level log entry at all: the scene-update failure is logged at
debug level (the scene-update attempt did happen, shown by the
scene-update count of 1). -/
theorem warning_level_claim_counterexample :
    List.countP isWarningLog
      (((⟨some ⟨some ⟨fun _ => Except.error "boom", []⟩, none⟩, [], none, none⟩ :
          BaseRandomizerType)._sync_visual_updates ⟨none, none⟩ false 1).2).1 = 0
    ∧ Event.log .debug ("Scene update during settle failed: boom")
        ∈ (((⟨some ⟨some ⟨fun _ => Except.error "boom", []⟩, none⟩, [], none, none⟩ :
            BaseRandomizerType)._sync_visual_updates ⟨none, none⟩ false 1).2).1
    ∧ List.countP isSceneUpdateEvent
        (((⟨some ⟨some ⟨fun _ => Except.error "boom", []⟩, none⟩, [], none, none⟩ :
            BaseRandomizerType)._sync_visual_updates ⟨none, none⟩ false 1).2).1 = 1 := by
  refine ⟨?_, ?_, ?_⟩ <;> decide

/-- C9 as amended: exceptions raised by the material-library wait (whether
the module-level wait function, the `get_instance` call, or a probed
instance wait method) or by the async-engine wait are logged at warning
level, while exceptions raised by collaborators inside the settle passes —
scene update, sim render, sensor update — are logged at debug level; a
missing collaborator (failed import) is logged at debug level; and in
every case execution continues — neither wait phase lets an exception
escape. -/
theorem collaborator_failure_log_levels :
    (∀ (env : Env) (e : Exn), env.async_engine = some (Except.error e) →
      Event.log .warning ("Failed to wait for async tasks: " ++ e)
        ∈ (_wait_for_async_engine env).1)
    ∧ (∀ env : Env, env.async_engine = none →
      Event.log .debug "Omniverse async engine not available; skipping wait_for_tasks"
        ∈ (_wait_for_async_engine env).1)
    ∧ (∀ env : Env, env.matlib = none →
      Event.log .debug "Material library not available; skipping wait"
        ∈ (_wait_for_material_library env).1)
    ∧ (∀ (env : Env) (m : MatLibModule) (e : Exn), env.matlib = some m →
      m.wait_for_pending_refreshes = some (Except.error e) →
      Event.log .warning ("Failed to wait for material refreshes: " ++ e)
        ∈ (_wait_for_material_library env).1)
    ∧ (∀ (env : Env) (m : MatLibModule) (e : Exn), env.matlib = some m →
      m.wait_for_pending_refreshes = none →
      m.get_instance = some (Except.error e) →
      Event.log .warning ("Failed to wait for material refreshes: " ++ e)
        ∈ (_wait_for_material_library env).1)
    ∧ (∀ (env : Env) (m : MatLibModule) (inst : MatLibInstance) (e : Exn),
      env.matlib = some m →
      m.wait_for_pending_refreshes = none →
      m.get_instance = some (Except.ok inst) →
      (probeLoop inst probeNames).2 = some e →
      Event.log .warning ("Failed to wait for material refreshes: " ++ e)
        ∈ (_wait_for_material_library env).1)
    ∧ (∀ (scene : Scene) (sim : Option Sim) (k : Nat) (e : Exn) (n : Nat),
      (∀ j, j < k → scene.update j = Except.ok ()) →
      scene.update k = Except.error e → k < n →
      Event.log .debug ("Scene update during settle failed: " ++ e)
        ∈ (settleLoop scene sim n 0).1)
    ∧ (∀ (scene : Scene) (s : Sim) (e : Exn) (n i : Nat),
      (∀ j, j ≤ i → scene.update j = Except.ok ()) → i < n →
      (renderBody s i).2 = some e →
      Event.log .debug ("Sim render during settle failed: " ++ e)
        ∈ (settleLoop scene (some s) n 0).1)
    ∧ (∀ (scene : Scene) (sim : Option Sim) (nm : String) (s : Sensor) (e : Exn) (n i : Nat),
      (nm, s) ∈ scene.sensors → s.update i = Except.error e →
      (∀ j, j ≤ i → scene.update j = Except.ok ()) → i < n →
      Event.log .debug ("Sensor update during settle failed: " ++ e)
        ∈ (settleLoop scene sim n 0).1)
    ∧ (∀ env : Env,
      (_wait_for_material_library env).2 = none ∧ (_wait_for_async_engine env).2 = none) := by
  refine ⟨?_, ?_, ?_, ?_, ?_, ?_, ?_, ?_, ?_,
    fun env => ⟨matlib_snd env, async_snd env⟩⟩
  · intro env e h
    rw [async_err_eq env e h]
    simp
  · intro env h
    rw [async_absent_eq env h]
    simp
  · intro env h
    rw [matlib_absent_eq env h]
    simp
  · intro env m e h1 h2
    have hb : matlibTryBody m = ([.matlibWaitCall "wait_for_pending_refreshes"], some e) := by
      unfold matlibTryBody
      rw [h2]
    have he : (eseq ([Event.moduleImport "omni.kit.material.library"], none)
        (matlibTryBody m)).2 = some e := by
      rw [eseq_none _ rfl, hb]
    rw [matlib_import_eq env m h1, pyTryAll_some _ he]
    simp
  · intro env m e h1 h2 h3
    have hb : matlibTryBody m = ([.getInstanceCall], some e) := by
      unfold matlibTryBody
      rw [h2, h3]
    have he : (eseq ([Event.moduleImport "omni.kit.material.library"], none)
        (matlibTryBody m)).2 = some e := by
      rw [eseq_none _ rfl, hb]
    rw [matlib_import_eq env m h1, pyTryAll_some _ he]
    simp
  · intro env m inst e h1 h2 h3 hp
    have hb : matlibTryBody m
        = eseq ([.getInstanceCall], none) (probeLoop inst probeNames) := by
      unfold matlibTryBody
      rw [h2, h3]
    have he : (eseq ([Event.moduleImport "omni.kit.material.library"], none)
        (matlibTryBody m)).2 = some e := by
      rw [eseq_none _ rfl, hb, eseq_none _ rfl, hp]
    rw [matlib_import_eq env m h1, pyTryAll_some _ he]
    simp
  · intro scene sim k e n h1 h2 h3
    exact settleLoop_fail_log scene sim k e h1 h2 n 0 (Nat.zero_le k) (by omega)
  · intro scene s e n i hok hi hrb
    have hr : Event.log .debug ("Sim render during settle failed: " ++ e)
        ∈ (renderPhase (some s) i).1 := by
      show Event.log .debug ("Sim render during settle failed: " ++ e)
        ∈ (pyTryAll (renderBody s i)
            (fun e => [.log .debug ("Sim render during settle failed: " ++ e)])).1
      rw [pyTryAll_some _ hrb]
      simp
    exact settleLoop_pass_mem scene (some s) _ i (Or.inl hr) n 0 (Nat.zero_le i)
      (by omega) hok
  · intro scene sim nm s e n i hmem herr hok hi
    exact settleLoop_pass_mem scene sim _ i
      (Or.inr (sensorPhase_fail_log i nm s e herr scene.sensors hmem)) n 0
      (Nat.zero_le i) (by omega) hok

/-- Witness for C9's amended statement: a failing async-engine wait, a
failing `get_instance` call and a failing probed instance wait method are
logged at warning level; a failing scene update, a failing sim render and
a failing sensor update are logged at debug level. -/
theorem collaborator_failure_log_levels_witness :
    Event.log .warning ("Failed to wait for async tasks: " ++ "io")
      ∈ (_wait_for_async_engine ⟨none, some (Except.error "io")⟩).1
    ∧ Event.log .warning ("Failed to wait for material refreshes: " ++ "gi")
      ∈ (_wait_for_material_library ⟨some ⟨none, some (Except.error "gi")⟩, none⟩).1
    ∧ Event.log .warning ("Failed to wait for material refreshes: " ++ "pw")
      ∈ (_wait_for_material_library
          ⟨some ⟨none, some (Except.ok ⟨some (Except.error "pw"), none, none, none⟩)⟩, none⟩).1
    ∧ Event.log .debug ("Scene update during settle failed: " ++ "boom")
      ∈ (settleLoop ⟨fun _ => Except.error "boom", []⟩ none 1 0).1
    ∧ Event.log .debug ("Sim render during settle failed: " ++ "gux")
      ∈ (settleLoop ⟨fun _ => Except.ok (), []⟩
          (some ⟨fun _ => Except.error "gux", fun _ => Except.ok false,
            fun _ => Except.ok ()⟩) 1 0).1
    ∧ Event.log .debug ("Sensor update during settle failed: " ++ "boom")
      ∈ (settleLoop ⟨fun _ => Except.ok (), [("cam2", ⟨fun _ => Except.error "boom"⟩)]⟩
          none 1 0).1 :=
  ⟨collaborator_failure_log_levels.1 ⟨none, some (Except.error "io")⟩ "io" rfl,
   collaborator_failure_log_levels.2.2.2.2.1 ⟨some ⟨none, some (Except.error "gi")⟩, none⟩
     ⟨none, some (Except.error "gi")⟩ "gi" rfl rfl rfl,
   collaborator_failure_log_levels.2.2.2.2.2.1
     ⟨some ⟨none, some (Except.ok ⟨some (Except.error "pw"), none, none, none⟩)⟩, none⟩
     ⟨none, some (Except.ok ⟨some (Except.error "pw"), none, none, none⟩)⟩
     ⟨some (Except.error "pw"), none, none, none⟩ "pw" rfl rfl rfl rfl,
   collaborator_failure_log_levels.2.2.2.2.2.2.1 ⟨fun _ => Except.error "boom", []⟩ none
     0 "boom" 1 (fun j hj => absurd hj (Nat.not_lt_zero j)) rfl (by omega),
   collaborator_failure_log_levels.2.2.2.2.2.2.2.1 ⟨fun _ => Except.ok (), []⟩
     ⟨fun _ => Except.error "gux", fun _ => Except.ok false, fun _ => Except.ok ()⟩
     "gux" 1 0 (fun j hj => rfl) (by omega) rfl,
   collaborator_failure_log_levels.2.2.2.2.2.2.2.2.1
     ⟨fun _ => Except.ok (), [("cam2", ⟨fun _ => Except.error "boom"⟩)]⟩ none
     "cam2" ⟨fun _ => Except.error "boom"⟩ "boom" 1 0 (List.Mem.head _) rfl
     (fun j hj => rfl) (by omega)⟩

end RoboVerse
